import Mathlib

/-!
Shallow embedding of the repository multiple-account-cdk-cicd-pipeline.

Embedded sources:
* src/cdk/lib/cdk-pipeline-stack.ts  (classes AppStage and CdkPipelineStack)
* src/unnamed/part_000               (Lambda handler A, Apollo GraphQL module)
* src/unnamed/part_001               (Lambda handler B, diagnostic stub)

The pipeline stack is CDK configuration code: its constructor reads environment
variables, assembles a CodePipeline with three waves of AppStages, finalizes the
pipeline, creates an access-log bucket and wires server-access logging onto the
artifact bucket and onto every sibling node whose constructor name matches
CrossRegionSupportStack.  We embed the constructor as a pure function from the
environment-variable assignment (and the list of sibling nodes of the enclosing
scope, which the provisioning framework populates) to a record of everything the
constructor produced.
-/

/-- The eight environment variables read at synthesis time
(cdk-pipeline-stack.ts lines 60 to 67).  A field is none when the variable is
unset in the process environment. -/
structure EnvVars where
  GITHUB_ORG : Option String
  GITHUB_REPO : Option String
  GITHUB_BRANCH : Option String
  DEV_ACCOUNT_ID : Option String
  STG_ACCOUNT_ID : Option String
  PRD_ACCOUNT_ID : Option String
  PRIMARY_REGION : Option String
  SECONDARY_REGION : Option String
deriving DecidableEq

/-- The environment with every variable unset. -/
def emptyEnv : EnvVars :=
  { GITHUB_ORG := none, GITHUB_REPO := none, GITHUB_BRANCH := none
  , DEV_ACCOUNT_ID := none, STG_ACCOUNT_ID := none, PRD_ACCOUNT_ID := none
  , PRIMARY_REGION := none, SECONDARY_REGION := none }

/-- The environment in which every variable is set to exactly the fallback
default the source supplies with the or-else operator on lines 60 to 67. -/
def defaultsEnv : EnvVars :=
  { GITHUB_ORG := some "undefined-github-org"
  , GITHUB_REPO := some "undefined-github-repo"
  , GITHUB_BRANCH := some "main"
  , DEV_ACCOUNT_ID := some "undefined"
  , STG_ACCOUNT_ID := some "undefined"
  , PRD_ACCOUNT_ID := some "undefined"
  , PRIMARY_REGION := some "undefined"
  , SECONDARY_REGION := some "undefined" }

/-- The JavaScript or-else operator applied to an environment-variable read,
as on lines 60 to 67: the fallback is taken when the variable is unset, and
also when it is set to the empty string, because the empty string is falsy in
JavaScript. -/
def jsOrElse (v : Option String) (d : String) : String :=
  match v with
  | none => d
  | some s => if s = "" then d else s

/-- The environment in which every variable is set to the empty string, which
the or-else operator treats exactly like an unset variable. -/
def emptyStringsEnv : EnvVars :=
  { GITHUB_ORG := some "", GITHUB_REPO := some "", GITHUB_BRANCH := some ""
  , DEV_ACCOUNT_ID := some "", STG_ACCOUNT_ID := some "", PRD_ACCOUNT_ID := some ""
  , PRIMARY_REGION := some "", SECONDARY_REGION := some "" }

/-- The ShellStep passed as the synth step of the CodePipeline
(cdk-pipeline-stack.ts lines 74 to 81): a CodePipelineSource.gitHub input given
as owner-slash-repository string plus branch, and the command list. -/
structure ShellStepDef where
  id : String
  inputRepoString : String
  inputBranch : String
  commands : List String
deriving DecidableEq

/-- A wave pre-condition step.  The source uses only ManualApprovalStep
(cdk-pipeline-stack.ts line 98). -/
inductive PreStep where
  | manualApproval (name : String)
deriving DecidableEq

/-- A pipeline wave: its identifier, its pre-condition steps, and the construct
identifiers of the stages added to it, in the order addStage was called. -/
structure WaveDef where
  id : String
  pre : List PreStep
  stages : List String
deriving DecidableEq

/-- The CodePipeline object as configured on lines 70 to 82, together with the
waves appended by the addWave calls, in call order. -/
structure CodePipelineDef where
  pipelineName : String
  enableKeyRotation : Bool
  crossAccountKeys : Bool
  synth : ShellStepDef
  waves : List WaveDef
deriving DecidableEq

/-- The finalized deployment graph produced by buildPipeline. -/
structure FinalizedPipeline where
  deploymentOrder : List WaveDef
deriving DecidableEq

/-- Modelled from the spec: the provisioning framework (aws-cdk-lib, not part of
this repository) materializes the deployment graph on buildPipeline, and waves
execute strictly in the order they were declared.  Spec section 4.2: Waves
execute in the order added. -/
def buildPipeline (p : CodePipelineDef) : FinalizedPipeline :=
  { deploymentOrder := p.waves }

/-- An account and region pair, the env property of StageProps. -/
structure StageEnv where
  account : String
  region : String
deriving DecidableEq

/-- A database instance handle.  Modelled from the spec: the relational
database provider (rds-stack.ts, which is not under src) supplies one managed
database instance per stage; handles produced by distinct stages are distinct,
which we capture by tagging the handle with the construct identifier of the
AppStage that owns it. -/
structure DbInstance where
  ownerStageId : String
deriving DecidableEq

/-- Modelled from the spec: RDSStack (rds-stack.ts, not under src) receives the
stage name, the secret replication regions and the optional primary instance
(cdk-pipeline-stack.ts lines 27 to 33) and exposes postgresRDSInstance, the
database instance handle it produced. -/
structure RDSStack where
  stage : String
  secretReplicationRegions : List String
  primaryRdsInstance : Option DbInstance
  postgresRDSInstance : DbInstance
deriving DecidableEq

/-- AppStageProps (cdk-pipeline-stack.ts lines 13 to 16): StageProps plus the
two optional fields. -/
structure AppStageProps where
  env : StageEnv
  primaryRdsInstance : Option DbInstance
  secretReplicationRegions : Option (List String)
deriving DecidableEq

/-- An AppStage after construction (cdk-pipeline-stack.ts lines 18 to 46).
The VpcStack and GraphqlApiStack it also instantiates carry no data any claim
refers to, so only the RDSStack wiring is recorded. -/
structure AppStage where
  id : String
  env : StageEnv
  rdsStack : RDSStack
deriving DecidableEq

/-- The AppStage constructor.  It threads a construction log (the list of
AppStage construct identifiers in the order the constructors ran) so that
construction order is observable.  The RDSStack receives
props.secretReplicationRegions or-else the empty list, and
props.primaryRdsInstance, exactly as on lines 27 to 33; its produced
postgresRDSInstance is fresh per stage. -/
def AppStage.construct (log : List String) (id : String) (props : AppStageProps) :
    List String × AppStage :=
  (log ++ [id],
   { id := id
   , env := props.env
   , rdsStack :=
     { stage := id
     , secretReplicationRegions := props.secretReplicationRegions.getD []
     , primaryRdsInstance := props.primaryRdsInstance
     , postgresRDSInstance := { ownerStageId := id } } })

/-- A synthesis-time value standing for the name of a bucket.  In the CDK, the
bucketName attribute of a bucket created without an explicit physical name is a
deploy-time token (a reference to the name CloudFormation will generate), which
at synthesis time is never equal to any literal string. -/
inductive NameRef where
  | deployTimeToken (constructId : String)
  | literal (s : String)
deriving DecidableEq

/-- The CfnBucket loggingConfiguration property. -/
structure LoggingConfiguration where
  destinationBucketName : NameRef
  logFilePrefixStr : String
deriving DecidableEq

/-- The four public-access-block flags of an S3 bucket. -/
structure BlockPublicAccess where
  blockPublicAcls : Bool
  blockPublicPolicy : Bool
  ignorePublicAcls : Bool
  restrictPublicBuckets : Bool
deriving DecidableEq

/-- BlockPublicAccess.BLOCK_ALL: all four flags set. -/
def BlockPublicAccess.BLOCK_ALL : BlockPublicAccess :=
  { blockPublicAcls := true, blockPublicPolicy := true
  , ignorePublicAcls := true, restrictPublicBuckets := true }

/-- Bucket encryption modes used by the source. -/
inductive BucketEncryption where
  | S3_MANAGED
deriving DecidableEq

/-- Removal policies mentioned by the source (the RETAIN alternative is present
only in a comment, but we keep both constructors). -/
inductive RemovalPolicy where
  | DESTROY
  | RETAIN
deriving DecidableEq

/-- An S3 Bucket as created by the Bucket construct, with the properties the
source sets (cdk-pipeline-stack.ts lines 128 to 138).  No bucketName property
is passed, so the physical name is generated at deploy time. -/
structure Bucket where
  constructId : String
  blockPublicAccess : BlockPublicAccess
  encryption : BucketEncryption
  enforceSSL : Bool
  removalPolicy : RemovalPolicy
  autoDeleteObjects : Bool
deriving DecidableEq

/-- The bucketName attribute of a Bucket created without an explicit physical
name: a deploy-time token tied to the construct, never a synthesis-time
literal. -/
def Bucket.bucketName (b : Bucket) : NameRef :=
  NameRef.deployTimeToken b.constructId

/-- The low-level CfnBucket: the only property the source touches is
loggingConfiguration. -/
structure CfnBucket where
  loggingConfiguration : Option LoggingConfiguration
deriving DecidableEq

/-- A child node of the enclosing scope, as inspected by the for-loop on lines
150 to 160.  The loop matches nodes by constructor name; the subsequent
unchecked cast assumes the node has the CrossRegionSupport shape, i.e. exposes
a replicationBucket.  A node without that shape is modelled with
replicationBucket none, and touching it raises a runtime type error. -/
structure ConstructNode where
  ctorName : String
  replicationBucket : Option CfnBucket
deriving DecidableEq

/-- The constant acccessLogsBucketNameStr of line 68 (source spelling kept). -/
def acccessLogsBucketNameStr : String := "MultiAccountAccessLogsBucket"

/-- The constant logFilePrefixStr of line 142. -/
def logFilePrefixStr : String := "logs/"

/-- The for-loop over the scope children (cdk-pipeline-stack.ts lines 150 to
160): each child whose constructor name equals CrossRegionSupportStack has the
loggingConfiguration of its replicationBucket set to the literal string
acccessLogsBucketNameStr with the fixed log-file key string; every other child
is left untouched.  A matching child without the expected shape makes the
unchecked cast blow up at the member access, modelled as an error. -/
def wireCrossRegionLogging : List ConstructNode → Except String (List ConstructNode)
  | [] => Except.ok []
  | n :: rest =>
    if n.ctorName = "CrossRegionSupportStack" then
      match n.replicationBucket with
      | some b =>
        match wireCrossRegionLogging rest with
        | Except.error e => Except.error e
        | Except.ok rest' =>
          let cfg : LoggingConfiguration :=
            { destinationBucketName := NameRef.literal acccessLogsBucketNameStr
            , logFilePrefixStr := logFilePrefixStr }
          let b' : CfnBucket := { b with loggingConfiguration := some cfg }
          Except.ok ({ n with replicationBucket := some b' } :: rest')
      | none => Except.error "TypeError: node does not have the CrossRegionSupport shape"
    else
      match wireCrossRegionLogging rest with
      | Except.error e => Except.error e
      | Except.ok rest' => Except.ok (n :: rest')

/-- Everything the CdkPipelineStack constructor produced. -/
structure CdkPipelineStackResult where
  pipeline : CodePipelineDef
  dev : AppStage
  qa : AppStage
  stgPrimary : AppStage
  prdPrimary : AppStage
  stgBackup : AppStage
  prdBackup : AppStage
  constructionOrder : List String
  accessLogsBucket : Bucket
  artifactBucket : CfnBucket
  scopeChildrenAfterWiring : Except String (List ConstructNode)

/-- The CdkPipelineStack constructor (cdk-pipeline-stack.ts lines 48 to 162) as
a pure function.  Inputs: the environment-variable assignment, and the list of
children of the enclosing scope at the time the wiring loop runs (the
provisioning framework creates the CrossRegionSupportStack children during
buildPipeline; they are a parameter here because their creation is framework
internal).  The let bindings follow the source order statement by statement. -/
def CdkPipelineStack.construct (penv : EnvVars) (scopeChildren : List ConstructNode) :
    CdkPipelineStackResult :=
  let githubOrg := jsOrElse penv.GITHUB_ORG "undefined-github-org"
  let githubRepo := jsOrElse penv.GITHUB_REPO "undefined-github-repo"
  let githubBranch := jsOrElse penv.GITHUB_BRANCH "main"
  let devAccountId := jsOrElse penv.DEV_ACCOUNT_ID "undefined"
  let stgAccountId := jsOrElse penv.STG_ACCOUNT_ID "undefined"
  let prdAccountId := jsOrElse penv.PRD_ACCOUNT_ID "undefined"
  let primaryRegion := jsOrElse penv.PRIMARY_REGION "undefined"
  let secondaryRegion := jsOrElse penv.SECONDARY_REGION "undefined"
  let synthStep : ShellStepDef :=
    { id := "deploy"
    , inputRepoString := githubOrg ++ "/" ++ githubRepo
    , inputBranch := githubBranch
    , commands := ["npm ci", "npm run build", "npx cdk synth"] }
  let devQaWave : WaveDef := { id := "DEV-and-QA-Deployments", pre := [], stages := [] }
  let (log1, dev) := AppStage.construct [] "dev"
    { env := { account := devAccountId, region := primaryRegion }
    , primaryRdsInstance := none, secretReplicationRegions := none }
  let (log2, qa) := AppStage.construct log1 "qa"
    { env := { account := devAccountId, region := secondaryRegion }
    , primaryRdsInstance := none, secretReplicationRegions := none }
  let devQaWave := { devQaWave with stages := devQaWave.stages ++ [dev.id] }
  let devQaWave := { devQaWave with stages := devQaWave.stages ++ [qa.id] }
  let primaryRdsRegionWave : WaveDef :=
    { id := "Primary-DB-Region-Deployments"
    , pre := [PreStep.manualApproval "ProdManualApproval"], stages := [] }
  let (log3, stgPrimary) := AppStage.construct log2 "stg-primary"
    { env := { account := stgAccountId, region := primaryRegion }
    , primaryRdsInstance := none, secretReplicationRegions := some [secondaryRegion] }
  let (log4, prdPrimary) := AppStage.construct log3 "prd-primary"
    { env := { account := prdAccountId, region := primaryRegion }
    , primaryRdsInstance := none, secretReplicationRegions := some [secondaryRegion] }
  let primaryRdsRegionWave :=
    { primaryRdsRegionWave with stages := primaryRdsRegionWave.stages ++ [stgPrimary.id] }
  let primaryRdsRegionWave :=
    { primaryRdsRegionWave with stages := primaryRdsRegionWave.stages ++ [prdPrimary.id] }
  let secondaryRdsRegionWave : WaveDef :=
    { id := "Secondary-DB-Region-Deployments", pre := [], stages := [] }
  let (log5, stgBackup) := AppStage.construct log4 "stg-backup"
    { env := { account := stgAccountId, region := secondaryRegion }
    , primaryRdsInstance := some stgPrimary.rdsStack.postgresRDSInstance
    , secretReplicationRegions := none }
  let (log6, prdBackup) := AppStage.construct log5 "prd-backup"
    { env := { account := prdAccountId, region := secondaryRegion }
    , primaryRdsInstance := some prdPrimary.rdsStack.postgresRDSInstance
    , secretReplicationRegions := none }
  let secondaryRdsRegionWave :=
    { secondaryRdsRegionWave with stages := secondaryRdsRegionWave.stages ++ [stgBackup.id] }
  let secondaryRdsRegionWave :=
    { secondaryRdsRegionWave with stages := secondaryRdsRegionWave.stages ++ [prdBackup.id] }
  let pipeline : CodePipelineDef :=
    { pipelineName := "AwsSamplesPipeline"
    , enableKeyRotation := true
    , crossAccountKeys := true
    , synth := synthStep
    , waves := [devQaWave, primaryRdsRegionWave, secondaryRdsRegionWave] }
  let accessLogsBucket : Bucket :=
    { constructId := acccessLogsBucketNameStr
    , blockPublicAccess := BlockPublicAccess.BLOCK_ALL
    , encryption := BucketEncryption.S3_MANAGED
    , enforceSSL := true
    , removalPolicy := RemovalPolicy.DESTROY
    , autoDeleteObjects := true }
  let artifactBucket : CfnBucket :=
    { loggingConfiguration :=
        some { destinationBucketName := accessLogsBucket.bucketName
             , logFilePrefixStr := logFilePrefixStr } }
  { pipeline := pipeline
  , dev := dev, qa := qa
  , stgPrimary := stgPrimary, prdPrimary := prdPrimary
  , stgBackup := stgBackup, prdBackup := prdBackup
  , constructionOrder := log6
  , accessLogsBucket := accessLogsBucket
  , artifactBucket := artifactBucket
  , scopeChildrenAfterWiring := wireCrossRegionLogging scopeChildren }

/-!  Execution semantics of the finalized pipeline, for the manual-approval
gate claim.  The orchestrator that runs the finalized graph is the AWS
CodePipeline service, external to this repository, so its semantics is
modelled from the spec. -/

/-- An observable event of a pipeline execution: a pre-condition step being
approved, a stage of some wave beginning to deploy, or an idle step in which
time passes and nothing happens. -/
inductive PipelineEvent where
  | approve (stepName : String)
  | stageStart (stageId : String)
  | tick
deriving DecidableEq

/-- Whether a pre-condition step has resolved to approved, given the names of
the approvals granted so far. -/
def stepApproved (approved : List String) : PreStep → Bool
  | PreStep.manualApproval n => decide (n ∈ approved)

/-- Whether the gate of the wave containing stage s is open: every
pre-condition of that wave has resolved to approved.  A stage belonging to no
declared wave is unconstrained. -/
def stageGateOpen (waves : List WaveDef) (approved : List String) (s : String) : Bool :=
  match waves.find? (fun w => w.stages.contains s) with
  | some w => w.pre.all (stepApproved approved)
  | none => true

/-- Modelled from the spec, section 4.2: a wave's pre-condition list must all
resolve to approved before the wave's stages begin deploying; the orchestrator
has no timeout, so an idle tick is always permitted and no rule ever forces an
approval or aborts the wait.  validFrom checks a trace of events under an
accumulator of approvals granted so far. -/
def validFrom (waves : List WaveDef) (approved : List String) :
    List PipelineEvent → Bool
  | [] => true
  | PipelineEvent.approve n :: rest => validFrom waves (n :: approved) rest
  | PipelineEvent.tick :: rest => validFrom waves approved rest
  | PipelineEvent.stageStart s :: rest =>
    stageGateOpen waves approved s && validFrom waves approved rest

/-- A trace is a valid execution of the finalized pipeline when every stage
start happens with its wave's gate open, starting from no approvals. -/
def validTrace (fp : FinalizedPipeline) (tr : List PipelineEvent) : Bool :=
  validFrom fp.deploymentOrder [] tr

/-!  Lambda handler B (src/unnamed/part_001, lines 35 to 38): the exported
handler logs the JSON-serialized event and returns the log-stream name of the
invocation context. -/

/-- A JSON value, the shape of a Lambda invocation event. -/
inductive Json where
  | null
  | bool (b : Bool)
  | num (n : Int)
  | str (s : String)
  | arr (items : List Json)
  | obj (fields : List (String × Json))

mutual

/-- JSON serialization of an event, modelling the call
JSON.stringify(event, null, 2) up to insignificant whitespace. -/
def stringifyJson : Json → String
  | Json.null => "null"
  | Json.bool true => "true"
  | Json.bool false => "false"
  | Json.num n => toString n
  | Json.str s => "\"" ++ s ++ "\""
  | Json.arr items => "[" ++ stringifyItems items ++ "]"
  | Json.obj fields => "\x7b" ++ stringifyFields fields ++ "\x7d"

/-- Comma-separated serialization of array items. -/
def stringifyItems : List Json → String
  | [] => ""
  | [j] => stringifyJson j
  | j :: rest => stringifyJson j ++ "," ++ stringifyItems rest

/-- Comma-separated serialization of object fields. -/
def stringifyFields : List (String × Json) → String
  | [] => ""
  | [(k, v)] => "\"" ++ k ++ "\":" ++ stringifyJson v
  | (k, v) :: rest => "\"" ++ k ++ "\":" ++ stringifyJson v ++ "," ++ stringifyFields rest

end

/-- The invocation context of a Lambda execution; the handler reads only
logStreamName. -/
structure LambdaContext where
  logStreamName : String
deriving DecidableEq

namespace LambdaB

/-- The exported handler of src/unnamed/part_001: it first logs the line
composed of the EVENT marker and the JSON-serialized event, then returns
context.logStreamName.  The result pairs the console output emitted before
returning with the returned value.  The function is total: no error path. -/
def handler (event : Json) (context : LambdaContext) : List String × String :=
  (["EVENT: \n" ++ stringifyJson event], context.logStreamName)

end LambdaB

/-!  Lambda handler A (src/unnamed/part_000): module-level initialization calls
createConnection without awaiting the promise and without attaching any
rejection handler, then constructs the ApolloServer and exports the handler. -/

namespace LambdaA

/-- The possible outcomes of the db connection attempt started by
createConnection: still pending, fulfilled, or rejected with an error. -/
inductive ConnOutcome where
  | pending
  | fulfilled
  | rejected (message : String)
deriving DecidableEq

/-- A promise value as seen from this module: its eventual outcome, and how
many observers (await, then or catch) this module attached to it. -/
structure JsPromise where
  outcome : ConnOutcome
  handlersAttached : Nat
deriving DecidableEq

/-- The ApolloServer configuration object built on lines 14 to 19 of
src/unnamed/part_000.  The imported typeDefs and resolvers are opaque named
values. -/
structure ApolloServerConfig where
  typeDefs : String
  resolvers : String
  introspection : Bool
  plugins : List String
deriving DecidableEq

/-- The value returned by server.createHandler: determined entirely by the
server it was created from. -/
structure ApolloHandler where
  server : ApolloServerConfig
deriving DecidableEq

/-- The state of the module after its top-level statements have run. -/
structure ModuleState where
  connectionPromise : JsPromise
  server : ApolloServerConfig
  handler : ApolloHandler
deriving DecidableEq

/-- The module top level of src/unnamed/part_000, parameterized by the outcome
the unawaited connection attempt will have.  Statement by statement:
createConnection() is called and its promise discarded (no await, no catch, so
zero handlers are attached by this module); the ApolloServer is constructed
unconditionally; the handler is created from the server and exported.  The
function is total: no outcome, including rejection, produces an error. -/
def moduleMain (connResult : ConnOutcome) : ModuleState :=
  let connectionPromise : JsPromise := { outcome := connResult, handlersAttached := 0 }
  let server : ApolloServerConfig :=
    { typeDefs := "typeDefs"
    , resolvers := "resolvers"
    , introspection := true
    , plugins := ["ApolloServerPluginLandingPageGraphQLPlayground"] }
  { connectionPromise := connectionPromise
  , server := server
  , handler := { server := server } }

end LambdaA

/-!  Concrete inputs used by closed theorems. -/

/-- An environment assignment with distinct primary and secondary regions, so
that deployment creates cross-region support stacks. -/
def envUsEastEuWest : EnvVars :=
  { emptyEnv with PRIMARY_REGION := some "us-east-1", SECONDARY_REGION := some "eu-west-1" }

/-- An environment assignment for the end-to-end scenario of the spec. -/
def acmeEnv : EnvVars :=
  { emptyEnv with
      GITHUB_ORG := some "acme"
      GITHUB_REPO := some "app"
      GITHUB_BRANCH := some "release" }

/-- A scope child created by the framework for cross-region deployment: its
constructor name matches and it has the CrossRegionSupport shape, with no
logging configured on its replication bucket. -/
def crossRegionChild : ConstructNode :=
  { ctorName := "CrossRegionSupportStack"
  , replicationBucket := some { loggingConfiguration := none } }

/-- A scope child that does not match the type-name pattern. -/
def otherChild : ConstructNode :=
  { ctorName := "CdkPipelineStack", replicationBucket := none }

/-- The constructor result at the concrete failing input for the cross-region
logging claim: regions differ and one cross-region support stack exists. -/
def crossRegionRun : CdkPipelineStackResult :=
  CdkPipelineStack.construct envUsEastEuWest [crossRegionChild]

/-- The logging configuration the wiring loop writes onto a matched
cross-region replication bucket: the literal construct-id string, with the
fixed log-file key string. -/
def wiredCfg : LoggingConfiguration :=
  { destinationBucketName := NameRef.literal "MultiAccountAccessLogsBucket"
  , logFilePrefixStr := "logs/" }

/-- The cross-region support child after the wiring loop has processed it. -/
def crossRegionChildWired : ConstructNode :=
  { ctorName := "CrossRegionSupportStack"
  , replicationBucket := some { loggingConfiguration := some wiredCfg } }

/-!  Theorems. -/

/-- Key lemma for the manual-approval gate: in any valid trace that reaches a
stage start for s, where the wave of s has a manual-approval pre-condition
named n, the approval n was either already granted at the start of the trace
segment or appears as an event earlier in the trace. -/
theorem validFrom_approval_before_start
    (waves : List WaveDef) (s : String) (w : WaveDef) (n : String)
    (hw : waves.find? (fun w => w.stages.contains s) = some w)
    (hn : PreStep.manualApproval n ∈ w.pre) :
    ∀ (pre : List PipelineEvent), ∀ (approved : List String) (suf : List PipelineEvent),
      validFrom waves approved (pre ++ PipelineEvent.stageStart s :: suf) = true →
      n ∈ approved ∨ PipelineEvent.approve n ∈ pre := by
  intro pre
  induction pre with
  | nil =>
    intro approved suf h
    left
    simp only [List.nil_append, validFrom] at h
    rw [Bool.and_eq_true] at h
    have hgate : stageGateOpen waves approved s = true := h.1
    unfold stageGateOpen at hgate
    rw [hw] at hgate
    have hstep := List.all_eq_true.mp hgate _ hn
    simpa [stepApproved] using hstep
  | cons e pre ih =>
    intro approved suf h
    cases e with
    | approve m =>
      simp only [List.cons_append, validFrom] at h
      rcases ih (m :: approved) suf h with hmem | hpre
      · rcases List.mem_cons.mp hmem with heq | hmem2
        · right; rw [heq]; exact List.mem_cons_self _ _
        · left; exact hmem2
      · right; exact List.mem_cons_of_mem _ hpre
    | tick =>
      simp only [List.cons_append, validFrom] at h
      rcases ih approved suf h with hmem | hpre
      · left; exact hmem
      · right; exact List.mem_cons_of_mem _ hpre
    | stageStart s2 =>
      simp only [List.cons_append, validFrom] at h
      rw [Bool.and_eq_true] at h
      rcases ih approved suf h.2 with hmem | hpre
      · left; exact hmem
      · right; exact List.mem_cons_of_mem _ hpre

/-- A trace of idle ticks of any length is valid: nothing in the semantics
forces an approval or times the wait out. -/
theorem validFrom_replicate_tick (waves : List WaveDef) (approved : List String) :
    ∀ k : Nat, validFrom waves approved (List.replicate k PipelineEvent.tick) = true := by
  intro k
  induction k with
  | zero => rfl
  | succ k ih => simpa [List.replicate_succ, validFrom] using ih

/-- The wiring loop leaves a list of children with no matching constructor name
untouched and raises no error. -/
theorem wireCrossRegionLogging_noop :
    ∀ (children : List ConstructNode),
      (∀ n, n ∈ children → n.ctorName ≠ "CrossRegionSupportStack") →
      wireCrossRegionLogging children = Except.ok children := by
  intro children
  induction children with
  | nil => intro _; rfl
  | cons n rest ih =>
    intro h
    have hn : n.ctorName ≠ "CrossRegionSupportStack" := h n (List.mem_cons_self _ _)
    have hrest := ih (fun m hm => h m (List.mem_cons_of_mem _ hm))
    simp only [wireCrossRegionLogging, if_neg hn, hrest]

/-- Claim C1.  Evaluation at a concrete failing input (distinct primary and
secondary regions, one cross-region support stack among the scope children):
the artifact bucket logging destination is the access-log bucket name (a
deploy-time token reference), but the cross-region replication bucket gets the
literal construct-id string as its destination, which is not the name of the
access-log bucket, since that bucket is created without an explicit physical
name.  So the claim that every such bucket has its destination set to the
access-log bucket name fails for the cross-region replication buckets. -/
theorem C1_cross_region_logging_destination :
    crossRegionRun.artifactBucket.loggingConfiguration =
      some { destinationBucketName := crossRegionRun.accessLogsBucket.bucketName
           , logFilePrefixStr := "logs/" }
    ∧ crossRegionRun.scopeChildrenAfterWiring = Except.ok [crossRegionChildWired]
    ∧ crossRegionChildWired.replicationBucket = some { loggingConfiguration := some wiredCfg }
    ∧ wiredCfg.logFilePrefixStr = "logs/"
    ∧ wiredCfg.destinationBucketName = NameRef.literal "MultiAccountAccessLogsBucket"
    ∧ wiredCfg.destinationBucketName ≠ crossRegionRun.accessLogsBucket.bucketName := by
  refine ⟨rfl, rfl, rfl, rfl, rfl, ?_⟩
  decide

/-- Claim C2.  For every environment assignment and every scope-children list,
the pipeline declares exactly the three waves DEV-and-QA-Deployments with
stages dev and qa, then Primary-DB-Region-Deployments with stages stg-primary
and prd-primary, then Secondary-DB-Region-Deployments with stages stg-backup
and prd-backup, each wave listing its stages in the order added; and the
deployment order of the finalized graph equals the declaration order. -/
theorem C2_wave_topology_and_order :
    ∀ penv children,
      (CdkPipelineStack.construct penv children).pipeline.waves =
        [ { id := "DEV-and-QA-Deployments", pre := [], stages := ["dev", "qa"] }
        , { id := "Primary-DB-Region-Deployments"
          , pre := [PreStep.manualApproval "ProdManualApproval"]
          , stages := ["stg-primary", "prd-primary"] }
        , { id := "Secondary-DB-Region-Deployments", pre := []
          , stages := ["stg-backup", "prd-backup"] } ]
      ∧ (buildPipeline (CdkPipelineStack.construct penv children).pipeline).deploymentOrder =
          (CdkPipelineStack.construct penv children).pipeline.waves := by
  intro penv children
  exact ⟨rfl, rfl⟩

/-- Claim C3.  For every environment assignment, the primary database handle
passed to stg-backup is exactly the database instance produced by stg-primary,
likewise for prd-backup and prd-primary, and in the construction order each
primary stage is constructed strictly before its corresponding backup stage. -/
theorem C3_primary_to_secondary_db_wiring :
    ∀ penv children,
      (CdkPipelineStack.construct penv children).stgBackup.rdsStack.primaryRdsInstance =
        some (CdkPipelineStack.construct penv children).stgPrimary.rdsStack.postgresRDSInstance
      ∧ (CdkPipelineStack.construct penv children).prdBackup.rdsStack.primaryRdsInstance =
        some (CdkPipelineStack.construct penv children).prdPrimary.rdsStack.postgresRDSInstance
      ∧ (CdkPipelineStack.construct penv children).constructionOrder.indexOf "stg-primary" <
        (CdkPipelineStack.construct penv children).constructionOrder.indexOf "stg-backup"
      ∧ (CdkPipelineStack.construct penv children).constructionOrder.indexOf "prd-primary" <
        (CdkPipelineStack.construct penv children).constructionOrder.indexOf "prd-backup" := by
  intro penv children
  refine ⟨rfl, rfl, ?_, ?_⟩ <;>
  · have hco : (CdkPipelineStack.construct penv children).constructionOrder =
        ["dev", "qa", "stg-primary", "prd-primary", "stg-backup", "prd-backup"] := rfl
    rw [hco]
    decide

/-- Claim C4.  In every valid execution trace of the finalized pipeline, a
stage of the wave named Primary-DB-Region-Deployments starts only after an
approval event for ProdManualApproval has occurred earlier in the trace; and
the orchestrator waits indefinitely: an all-idle trace of any length is valid
and contains no stage start. -/
theorem C4_manual_approval_gate (penv : EnvVars) (children : List ConstructNode)
    (tr : List PipelineEvent)
    (h : validTrace (buildPipeline (CdkPipelineStack.construct penv children).pipeline) tr = true) :
    (∀ w, w ∈ (buildPipeline (CdkPipelineStack.construct penv children).pipeline).deploymentOrder →
        w.id = "Primary-DB-Region-Deployments" →
        ∀ s, s ∈ w.stages → ∀ pre suf,
          tr = pre ++ PipelineEvent.stageStart s :: suf →
          PipelineEvent.approve "ProdManualApproval" ∈ pre)
    ∧ (∀ k : Nat,
        validTrace (buildPipeline (CdkPipelineStack.construct penv children).pipeline)
            (List.replicate k PipelineEvent.tick) = true
        ∧ ∀ s, PipelineEvent.stageStart s ∉ List.replicate k PipelineEvent.tick) := by
  have hdo : (buildPipeline (CdkPipelineStack.construct penv children).pipeline).deploymentOrder =
      [ { id := "DEV-and-QA-Deployments", pre := [], stages := ["dev", "qa"] }
      , { id := "Primary-DB-Region-Deployments"
        , pre := [PreStep.manualApproval "ProdManualApproval"]
        , stages := ["stg-primary", "prd-primary"] }
      , { id := "Secondary-DB-Region-Deployments", pre := []
        , stages := ["stg-backup", "prd-backup"] } ] := rfl
  constructor
  · intro w hwmem hwid s hs pre suf htr
    rw [hdo] at hwmem
    have hvf : validFrom
        (buildPipeline (CdkPipelineStack.construct penv children).pipeline).deploymentOrder
        [] tr = true := h
    rw [hdo] at hvf
    subst htr
    rcases List.mem_cons.mp hwmem with hw1 | hwmem2
    · subst hw1; exact absurd hwid (by decide)
    rcases List.mem_cons.mp hwmem2 with hw2 | hwmem3
    · subst hw2
      rcases List.mem_cons.mp hs with hs1 | hs2
      · subst hs1
        have := validFrom_approval_before_start
          [ { id := "DEV-and-QA-Deployments", pre := [], stages := ["dev", "qa"] }
          , { id := "Primary-DB-Region-Deployments"
            , pre := [PreStep.manualApproval "ProdManualApproval"]
            , stages := ["stg-primary", "prd-primary"] }
          , { id := "Secondary-DB-Region-Deployments", pre := []
            , stages := ["stg-backup", "prd-backup"] } ]
          _
          { id := "Primary-DB-Region-Deployments"
          , pre := [PreStep.manualApproval "ProdManualApproval"]
          , stages := ["stg-primary", "prd-primary"] }
          "ProdManualApproval" (by decide) (by decide) pre [] suf hvf
        rcases this with hmem | hpre
        · exact absurd hmem (List.not_mem_nil _)
        · exact hpre
      rcases List.mem_cons.mp hs2 with hs1 | hs3
      · subst hs1
        have := validFrom_approval_before_start
          [ { id := "DEV-and-QA-Deployments", pre := [], stages := ["dev", "qa"] }
          , { id := "Primary-DB-Region-Deployments"
            , pre := [PreStep.manualApproval "ProdManualApproval"]
            , stages := ["stg-primary", "prd-primary"] }
          , { id := "Secondary-DB-Region-Deployments", pre := []
            , stages := ["stg-backup", "prd-backup"] } ]
          _
          { id := "Primary-DB-Region-Deployments"
          , pre := [PreStep.manualApproval "ProdManualApproval"]
          , stages := ["stg-primary", "prd-primary"] }
          "ProdManualApproval" (by decide) (by decide) pre [] suf hvf
        rcases this with hmem | hpre
        · exact absurd hmem (List.not_mem_nil _)
        · exact hpre
      · exact absurd hs3 (List.not_mem_nil _)
    rcases List.mem_cons.mp hwmem3 with hw3 | hwmem4
    · subst hw3; exact absurd hwid (by decide)
    · exact absurd hwmem4 (List.not_mem_nil _)
  · intro k
    constructor
    · exact validFrom_replicate_tick _ _ k
    · intro s hmem
      rcases List.mem_replicate.mp hmem with ⟨-, habs⟩
      cases habs

/-- Witness for claim C4: a concrete valid trace in which the approval is
granted and stg-primary then starts; the theorem applied to it places the
approval event before the stage start. -/
theorem C4_manual_approval_gate_witness :
    PipelineEvent.approve "ProdManualApproval" ∈
      [PipelineEvent.approve "ProdManualApproval", PipelineEvent.tick] :=
  (C4_manual_approval_gate emptyEnv []
      [PipelineEvent.approve "ProdManualApproval", PipelineEvent.tick,
       PipelineEvent.stageStart "stg-primary"] (by decide)).1
    { id := "Primary-DB-Region-Deployments"
    , pre := [PreStep.manualApproval "ProdManualApproval"]
    , stages := ["stg-primary", "prd-primary"] }
    (by decide) rfl "stg-primary" (by decide)
    [PipelineEvent.approve "ProdManualApproval", PipelineEvent.tick] [] rfl

/-- Claim C5.  For every assignment of the synthesis-time environment
variables, the source step references the string org-slash-repo at the given
branch, where each variable resolves through the or-else fallback of the
source (taken when the variable is unset, and also when it is set to the
empty string, which is falsy), and the build command sequence is exactly
npm ci, npm run build, npx cdk synth; an unset environment behaves exactly
like the environment in which every variable is set to its documented
fallback default, with GITHUB_BRANCH defaulting to main; an all-empty-string
environment behaves exactly like an unset one; and the acme scenario gives
source acme/app at branch release. -/
theorem C5_source_and_build_commands :
    (∀ penv children,
      (CdkPipelineStack.construct penv children).pipeline.synth.commands =
          ["npm ci", "npm run build", "npx cdk synth"]
      ∧ (CdkPipelineStack.construct penv children).pipeline.synth.inputRepoString =
          (jsOrElse penv.GITHUB_ORG "undefined-github-org") ++ "/" ++
            (jsOrElse penv.GITHUB_REPO "undefined-github-repo")
      ∧ (CdkPipelineStack.construct penv children).pipeline.synth.inputBranch =
          jsOrElse penv.GITHUB_BRANCH "main")
    ∧ (∀ children,
        CdkPipelineStack.construct emptyEnv children =
          CdkPipelineStack.construct defaultsEnv children)
    ∧ (∀ children,
        CdkPipelineStack.construct emptyStringsEnv children =
          CdkPipelineStack.construct emptyEnv children)
    ∧ (∀ children,
        (CdkPipelineStack.construct acmeEnv children).pipeline.synth.inputRepoString = "acme/app"
        ∧ (CdkPipelineStack.construct acmeEnv children).pipeline.synth.inputBranch = "release"
        ∧ (CdkPipelineStack.construct acmeEnv children).pipeline.synth.commands =
            ["npm ci", "npm run build", "npx cdk synth"]) := by
  refine ⟨fun penv children => ⟨rfl, rfl, rfl⟩, fun children => by rfl,
    fun children => by rfl, fun children => ⟨by rfl, by rfl, rfl⟩⟩

/-- Claim C6.  For every environment assignment, the access-log bucket is
created with all four public-access-block flags set, enforceSSL true,
S3-managed server-side encryption, removal policy DESTROY and
autoDeleteObjects true, so the bucket and its objects are destroyed on stack
teardown. -/
theorem C6_access_logs_bucket_configuration :
    ∀ penv children,
      (CdkPipelineStack.construct penv children).accessLogsBucket.blockPublicAccess.blockPublicAcls = true
      ∧ (CdkPipelineStack.construct penv children).accessLogsBucket.blockPublicAccess.blockPublicPolicy = true
      ∧ (CdkPipelineStack.construct penv children).accessLogsBucket.blockPublicAccess.ignorePublicAcls = true
      ∧ (CdkPipelineStack.construct penv children).accessLogsBucket.blockPublicAccess.restrictPublicBuckets = true
      ∧ (CdkPipelineStack.construct penv children).accessLogsBucket.blockPublicAccess =
          BlockPublicAccess.BLOCK_ALL
      ∧ (CdkPipelineStack.construct penv children).accessLogsBucket.enforceSSL = true
      ∧ (CdkPipelineStack.construct penv children).accessLogsBucket.encryption =
          BucketEncryption.S3_MANAGED
      ∧ (CdkPipelineStack.construct penv children).accessLogsBucket.removalPolicy =
          RemovalPolicy.DESTROY
      ∧ (CdkPipelineStack.construct penv children).accessLogsBucket.autoDeleteObjects = true := by
  intro penv children
  exact ⟨rfl, rfl, rfl, rfl, rfl, rfl, rfl, rfl, rfl⟩

/-- Claim C7.  For every invocation event and context, Lambda handler B
returns the log-stream name of the invocation context unchanged, and the
console output it emits before returning is exactly the one line consisting of
the EVENT marker and the JSON-serialized event; the handler is a total
function, so it has no error path. -/
theorem C7_lambda_b_echoes_log_stream :
    ∀ (event : Json) (context : LambdaContext),
      (LambdaB.handler event context).2 = context.logStreamName
      ∧ (LambdaB.handler event context).1 = ["EVENT: \n" ++ stringifyJson event] := by
  intro event context
  exact ⟨rfl, rfl⟩

/-- Claim C8, counterexample.  At a concrete input the pipeline declares three
waves, not five: the claim that the declared topology consists of five waves
is false. -/
theorem C8_counterexample_not_five_waves :
    ¬ ((CdkPipelineStack.construct emptyEnv []).pipeline.waves.length = 5) := by
  decide

/-- Claim C8 as amended.  The deployment topology declared by the pipeline
orchestrator consists of three waves, for every environment assignment. -/
theorem C8_three_waves :
    ∀ penv children, (CdkPipelineStack.construct penv children).pipeline.waves.length = 3 := by
  intro penv children
  rfl

/-- Claim C9.  If no child of the enclosing scope has constructor name
CrossRegionSupportStack, the wiring loop returns the children unchanged and
raises no error, and every other part of the constructed topology (pipeline,
stages, construction order, access-log bucket, artifact bucket) is exactly
what it is for any other children list. -/
theorem C9_wiring_silent_noop (penv : EnvVars) (children : List ConstructNode)
    (h : ∀ n, n ∈ children → n.ctorName ≠ "CrossRegionSupportStack") :
    (CdkPipelineStack.construct penv children).scopeChildrenAfterWiring = Except.ok children
    ∧ (CdkPipelineStack.construct penv children).pipeline =
        (CdkPipelineStack.construct penv []).pipeline
    ∧ (CdkPipelineStack.construct penv children).dev = (CdkPipelineStack.construct penv []).dev
    ∧ (CdkPipelineStack.construct penv children).qa = (CdkPipelineStack.construct penv []).qa
    ∧ (CdkPipelineStack.construct penv children).stgPrimary =
        (CdkPipelineStack.construct penv []).stgPrimary
    ∧ (CdkPipelineStack.construct penv children).prdPrimary =
        (CdkPipelineStack.construct penv []).prdPrimary
    ∧ (CdkPipelineStack.construct penv children).stgBackup =
        (CdkPipelineStack.construct penv []).stgBackup
    ∧ (CdkPipelineStack.construct penv children).prdBackup =
        (CdkPipelineStack.construct penv []).prdBackup
    ∧ (CdkPipelineStack.construct penv children).constructionOrder =
        (CdkPipelineStack.construct penv []).constructionOrder
    ∧ (CdkPipelineStack.construct penv children).accessLogsBucket =
        (CdkPipelineStack.construct penv []).accessLogsBucket
    ∧ (CdkPipelineStack.construct penv children).artifactBucket =
        (CdkPipelineStack.construct penv []).artifactBucket := by
  refine ⟨?_, rfl, rfl, rfl, rfl, rfl, rfl, rfl, rfl, rfl, rfl⟩
  have hstep : (CdkPipelineStack.construct penv children).scopeChildrenAfterWiring =
      wireCrossRegionLogging children := rfl
  rw [hstep]
  exact wireCrossRegionLogging_noop children h

/-- Witness for claim C9: a concrete scope whose only child is the pipeline
stack itself, which does not match the pattern, passes through the wiring
unmodified with no error. -/
theorem C9_wiring_silent_noop_witness :
    (CdkPipelineStack.construct emptyEnv [otherChild]).scopeChildrenAfterWiring =
      Except.ok [otherChild] :=
  (C9_wiring_silent_noop emptyEnv [otherChild] (by decide)).1

/-- Claim C10.  The module of Lambda handler A produces the same exported
handler and the same server for every outcome of the connection attempt
(pending, fulfilled or rejected); the module attaches zero observers (await,
then or catch) to the connection promise, so a connection failure is never
observed, caught or propagated by the module, whose top level is a total
function with no error path. -/
theorem C10_handler_independent_of_connection :
    (∀ o1 o2 : LambdaA.ConnOutcome,
        (LambdaA.moduleMain o1).handler = (LambdaA.moduleMain o2).handler
        ∧ (LambdaA.moduleMain o1).server = (LambdaA.moduleMain o2).server)
    ∧ (∀ o : LambdaA.ConnOutcome,
        (LambdaA.moduleMain o).connectionPromise.handlersAttached = 0
        ∧ (LambdaA.moduleMain o).connectionPromise.outcome = o) := by
  exact ⟨fun o1 o2 => ⟨rfl, rfl⟩, fun o => ⟨rfl, rfl⟩⟩
